import Mathlib

/-!
Verification of the semantic-search facade in `run_milvus.py`.

The script glues two external collaborators together: an embedding
provider (OpenAI) and a vector store (Milvus).  We embed the script's own
logic directly from the source; the two collaborators are parameters
(an embedding function passed explicitly) or are modelled from the spec's
contract for them (the store's nearest-neighbour query).  Vectors are
`List Int` and distances `Int`: the store's distance metric is
store-defined, so every theorem about the query path is stated for an
arbitrary metric.
-/

namespace RunMilvus

/-- Constant from `SemanticSearch.__init__`: `self.COLLECTION_NAME`. -/
def COLLECTION_NAME : String := "semantic_search_demo"

/-- Constant from `SemanticSearch.__init__`: `self.DIMENSION` (for
`text-embedding-3-small`). -/
def DIMENSION : Nat := 1536

/-- An embedding vector.  The real script uses floats; the claims under
verification never depend on the arithmetic of vector components, only on
identity and ordering of store-computed distances, so integer components
suffice. -/
abbrev Vec := List Int

/-- A logical document, as in the dicts passed to `add_documents`
(`{"id": ..., "text": ...}`). -/
structure Doc where
  id : Int
  text : String
deriving DecidableEq, Repr

/-- A stored record, as in the `data` dict passed to
`milvus_client.insert`: `{"id": ..., "vector": ..., "text": ...}`. -/
structure StoredRecord where
  id : Int
  vector : Vec
  text : String
deriving DecidableEq, Repr

/-- The state of the external vector store visible to the script:
the set of collections (name paired with the dimension it was created
with) and the inserted records, each tagged with the collection it was
inserted into.  Records are kept in insertion order. -/
structure StoreState where
  collections : List (String × Nat)
  records : List (String × StoredRecord)
deriving DecidableEq, Repr

/-- `milvus_client.has_collection(name)`. -/
def hasCollection (s : StoreState) (name : String) : Bool :=
  s.collections.any (fun c => c.1 == name)

/-- `milvus_client.create_collection(collection_name, dimension, ...)`. -/
def createCollection (s : StoreState) (name : String) (dim : Nat) : StoreState :=
  { s with collections := s.collections ++ [(name, dim)] }

/-- `SemanticSearch._initialize_collection`, generalized over the name and
dimension it is called with (the source reads them from `self`): if the
collection exists, return at once; otherwise create it. -/
def ensureCollection (s : StoreState) (name : String) (dim : Nat) : StoreState :=
  if hasCollection s name then s
  else createCollection s name dim

/-- `SemanticSearch._initialize_collection` exactly as the source calls it,
with the hard-coded collection name and dimension. -/
def initializeCollection (s : StoreState) : StoreState :=
  ensureCollection s COLLECTION_NAME DIMENSION

/-- Dimension recorded for the first collection of a given name, if any. -/
def lookupDim (s : StoreState) (name : String) : Option Nat :=
  (s.collections.find? (fun c => c.1 == name)).map (fun c => c.2)

/-- Number of collections carrying a given name. -/
def countName (s : StoreState) (name : String) : Nat :=
  (s.collections.filter (fun c => c.1 == name)).length

/-- `milvus_client.insert(collection_name, data)`: appends the record. -/
def insertRecord (s : StoreState) (name : String) (r : StoredRecord) : StoreState :=
  { s with records := s.records ++ [(name, r)] }

end RunMilvus

namespace RunMilvus

/-- The subset of a stored record a query hit carries, restricted to the
requested output fields (absent fields are `none`), as in the `entity`
part of a Milvus search hit. -/
structure Entity where
  id : Option Int
  vector : Option Vec
  text : Option String
deriving DecidableEq, Repr

/-- A raw hit as returned by `milvus_client.search`: the store-computed
distance together with the requested output fields. -/
structure RawHit where
  distance : Int
  entity : Entity
deriving DecidableEq, Repr

/-- Hit built by the store for one record under a set of output fields. -/
def mkHit (dist : Vec → Vec → Int) (qv : Vec) (outputFields : List String)
    (r : StoredRecord) : RawHit :=
  { distance := dist qv r.vector,
    entity :=
      { id := if "id" ∈ outputFields then some r.id else none,
        vector := if "vector" ∈ outputFields then some r.vector else none,
        text := if "text" ∈ outputFields then some r.text else none } }

/-- Modelled from the spec: `VectorStoreGateway.query`, the contract of the
external `milvus_client.search` call (the store engine itself is outside
the repository).  Per the spec it returns at most `limit` hits over the
named collection's records, ordered by increasing store-defined distance
(most similar first), each carrying only the requested output fields.
`dist` is the store-defined metric, a parameter because callers must not
assume a particular one. -/
def storeQuery (dist : Vec → Vec → Int) (s : StoreState) (name : String)
    (qv : Vec) (limit : Nat) (outputFields : List String) : List RawHit :=
  let recs := (s.records.filter (fun p => p.1 == name)).map (fun p => p.2)
  let sorted :=
    recs.insertionSort (fun a b => dist qv a.vector ≤ dist qv b.vector)
  (sorted.take limit).map (mkHit dist qv outputFields)

/-- `SemanticSearch.search(query, limit=3)`: embed the query, search the
collection with `output_fields=["text"]`, and return the first (and only)
query's results.  `embedF` is the external embedding provider
(`_get_embedding`), `dist` the store's metric. -/
def search (embedF : String → Vec) (dist : Vec → Vec → Int) (s : StoreState)
    (query : String) (limit : Nat := 3) : List RawHit :=
  storeQuery dist s COLLECTION_NAME (embedF query) limit ["text"]

/-- The result record the demo driver prints for one hit
(`main`, the `for result in results` loop): a similarity score computed as
`-result['distance']`, the text from `result['entity']['text']`, and the
raw distance itself. -/
structure SearchHit where
  text : Option String
  score : Int
  rawDistance : Int
deriving DecidableEq, Repr

/-- The driver's mapping from a raw hit to what it reports. -/
def toSearchHit (h : RawHit) : SearchHit :=
  { text := h.entity.text, score := -h.distance, rawDistance := h.distance }

/-- The hits as the driver reports them for one query. -/
def searchHits (embedF : String → Vec) (dist : Vec → Vec → Int)
    (s : StoreState) (query : String) (limit : Nat := 3) : List SearchHit :=
  (search embedF dist s query limit).map toSearchHit

/-- Errors of the external embedding provider, from the spec's taxonomy. -/
inductive EmbedError
  | providerUnavailable
  | rateLimited
deriving DecidableEq, Repr

/-- The record `add_documents` builds for a document whose embedding is
known: `{"id": doc["id"], "vector": embedding, "text": doc["text"]}`. -/
def mkRecord (v : Vec) (d : Doc) : StoredRecord :=
  { id := d.id, vector := v, text := d.text }

/-- Value of a successful embedding call; placeholder on the error arm
(never reached where it is used). -/
def okVal : Except EmbedError Vec → Vec
  | .ok v => v
  | .error _ => []

/-- The `for doc in documents` loop of `SemanticSearch.add_documents`:
for each document in order, call the embedding provider and insert the
record; a provider failure propagates at once (Python exception), leaving
the insertions already made in place.  Returns the final store state and
the error, if one occurred. -/
def addDocsLoop (embed : String → Except EmbedError Vec) (s : StoreState) :
    List Doc → StoreState × Option EmbedError
  | [] => (s, none)
  | d :: ds =>
    match embed d.text with
    | .error e => (s, some e)
    | .ok v =>
      addDocsLoop embed (insertRecord s COLLECTION_NAME (mkRecord v d)) ds

/-- `SemanticSearch.add_documents(documents)`: run the loop; on success the
trailing `print(f"Added {len(documents)} documents ...")` reports the count,
modelled as the `.ok` payload; a provider failure surfaces unchanged as
`.error` and the count is never reported. -/
def add_documents (embed : String → Except EmbedError Vec) (s : StoreState)
    (documents : List Doc) : StoreState × Except EmbedError Nat :=
  match addDocsLoop embed s documents with
  | (s', none) => (s', .ok documents.length)
  | (s', some e) => (s', .error e)

/-- Python's whitespace set for `str.strip()`. -/
def isSpaceChar (c : Char) : Bool :=
  c == ' ' || c == '\t' || c == '\n' || c == '\r' || c == '\x0b' || c == '\x0c'

/-- Python `str.strip()`: drop leading and trailing whitespace. -/
def pyStrip (s : String) : String :=
  ⟨((s.data.dropWhile isSpaceChar).reverse.dropWhile isSpaceChar).reverse⟩

/-- ASCII lowering of one character, as Python `str.lower()` does on the
ASCII sentinel strings the driver compares against. -/
def lowerChar (c : Char) : Char :=
  if 'A' ≤ c ∧ c ≤ 'Z' then Char.ofNat (c.toNat + 32) else c

/-- Python `str.lower()` (ASCII range). -/
def pyLower (s : String) : String :=
  ⟨s.data.map lowerChar⟩

/-- What the driver's `while True` loop does with one input line. -/
inductive LoopAction
  | quit
  | skip
  | search (query : String)
deriving DecidableEq, Repr

/-- One iteration of the interactive loop in `main`:
`query = input(...).strip()`; `if query.lower() in ["quit", "exit", "q"]:
break`; `if not query: continue`; otherwise one search with the stripped
query. -/
def processLine (line : String) : LoopAction :=
  let query := pyStrip line
  if pyLower query ∈ ["quit", "exit", "q"] then .quit
  else if query == "" then .skip
  else .search query

/-- The whole interactive loop over a sequence of input lines, returning
the queries actually searched, in order, until a quit sentinel (or the
input is exhausted). -/
def runLoop : List String → List String
  | [] => []
  | line :: rest =>
    match processLine line with
    | .quit => []
    | .skip => runLoop rest
    | .search q => q :: runLoop rest

/-- Startup failure, from the spec's error taxonomy: a required
configuration value is absent (the source raises `KeyError` on the
`config[...]` dict access at import time). -/
inductive StartupError
  | configMissing (key : String)
deriving DecidableEq, Repr

/-- The two validated configuration values. -/
structure AppConfig where
  apiKey : String
  baseUrl : String
deriving DecidableEq, Repr

/-- Lookup in the parsed `.env` mapping (`dotenv_values` returns a dict;
`configLookup` is `config.get(key)`). -/
def configLookup (cfg : List (String × String)) (key : String) : Option String :=
  (cfg.find? (fun p => p.1 == key)).map (fun p => p.2)

/-- Module lines 9-10: `OPENAI_API_KEY = config["OPENAI_API_KEY"]` then
`OPENAI_BASE_URL = config["OPENAI_BASE_URL"]`; a missing key raises
`KeyError` there, before anything else runs. -/
def loadConfig (cfg : List (String × String)) : Except StartupError AppConfig :=
  match configLookup cfg "OPENAI_API_KEY" with
  | none => .error (.configMissing "OPENAI_API_KEY")
  | some k =>
    match configLookup cfg "OPENAI_BASE_URL" with
    | none => .error (.configMissing "OPENAI_BASE_URL")
    | some u => .ok { apiKey := k, baseUrl := u }

/-- Startup followed by the rest of the program: every facade operation
runs only under a successfully loaded configuration, because the module
body evaluates the config accesses first. -/
def startup (cfg : List (String × String)) (run : AppConfig → StoreState) :
    Except StartupError StoreState :=
  (loadConfig cfg).map run

/-- The driver's search call on line 158:
`search_engine.search(query, limit=2)`. -/
def mainSearchResults (embedF : String → Vec) (dist : Vec → Vec → Int)
    (s : StoreState) (query : String) : List RawHit :=
  search embedF dist s query 2

/-- Squared Euclidean distance, one concrete store metric (used only to
instantiate theorems that hold for every metric). -/
def sqDist (v w : Vec) : Int :=
  ((v.zip w).map (fun p => (p.1 - p.2) * (p.1 - p.2))).sum

/-- Fixture: a store whose collection already exists with dimension 512,
different from the configured 1536. -/
def s512 : StoreState :=
  { collections := [("semantic_search_demo", 512)], records := [] }

/-- Fixture: an embedding function for evaluation. -/
def embedW : String → Vec := fun t => [Int.ofNat t.length]

/-- Fixture: a store with one collection and three records. -/
def storeW : StoreState :=
  { collections := [(COLLECTION_NAME, DIMENSION)],
    records := [(COLLECTION_NAME, { id := 1, vector := [0], text := "A" }),
                (COLLECTION_NAME, { id := 2, vector := [5], text := "B" }),
                (COLLECTION_NAME, { id := 3, vector := [2], text := "C" })] }

/-- Fixture: a fallible embedding provider that succeeds on "a" and "b"
and fails on everything else. -/
def embedFail : String → Except EmbedError Vec :=
  fun t => if t == "a" || t == "b" then .ok [1] else .error .providerUnavailable

/-- Fixture: five documents; `embedFail` fails on the third one. -/
def docsW : List Doc :=
  [{ id := 1, text := "a" }, { id := 2, text := "b" }, { id := 3, text := "c" },
   { id := 4, text := "d" }, { id := 5, text := "e" }]

/-- Fixture: a store with the collection created and no records yet. -/
def storeE : StoreState :=
  { collections := [(COLLECTION_NAME, DIMENSION)], records := [] }

end RunMilvus

namespace RunMilvus

/-- If the collection already exists, `_initialize_collection` returns at
once without touching the store. -/
theorem ensureCollection_of_has {s : StoreState} {name : String} (dim : Nat)
    (h : hasCollection s name = true) : ensureCollection s name dim = s := by
  simp [ensureCollection, h]

/-- After `ensureCollection` the collection exists. -/
theorem hasCollection_ensureCollection (s : StoreState) (name : String)
    (dim : Nat) : hasCollection (ensureCollection s name dim) name = true := by
  cases h : hasCollection s name
  · simp only [ensureCollection, h, Bool.false_eq_true, if_false]
    simp [hasCollection, createCollection, List.any_append]
  · simp [ensureCollection, h]

/-- C2: collection creation is idempotent — a second
`ensureCollection` call with the same name and dimension finds the
collection present, creates nothing and returns the store unchanged, so
the state after two calls equals the state after one and the number of
collections of that name does not grow. -/
theorem ensureCollection_idempotent (s : StoreState) (name : String)
    (dim : Nat) :
    ensureCollection (ensureCollection s name dim) name dim =
      ensureCollection s name dim ∧
    countName (ensureCollection (ensureCollection s name dim) name dim) name =
      countName (ensureCollection s name dim) name := by
  have h := ensureCollection_of_has dim (hasCollection_ensureCollection s name dim)
  exact ⟨h, by rw [h]⟩

/-- C4, counterexample: on a store whose collection
`semantic_search_demo` already exists with dimension 512 ≠ 1536,
`_initialize_collection` succeeds and returns the store unchanged — it
never compares dimensions and raises no `SchemaConflict` (its result type
has no error at all), so the claim that it fails is false. -/
theorem initializeCollection_counterexample :
    initializeCollection s512 = s512 ∧
    lookupDim s512 COLLECTION_NAME = some 512 ∧
    DIMENSION = 1536 ∧ (512 : Nat) ≠ DIMENSION :=
  ⟨by decide, by decide, rfl, by decide⟩

/-- C4, amended: if a collection of the configured name already
exists, `_initialize_collection` treats it as correct and returns the
store unchanged, whatever dimension it was created with; no
`SchemaConflict` check is performed. -/
theorem initializeCollection_existing_noop (s : StoreState)
    (h : hasCollection s COLLECTION_NAME = true) :
    initializeCollection s = s :=
  ensureCollection_of_has DIMENSION h

/-- Witness for the amended C4 theorem at the 512-dimension store. -/
theorem initializeCollection_existing_noop_witness :
    hasCollection s512 COLLECTION_NAME = true ∧ initializeCollection s512 = s512 :=
  ⟨by decide, initializeCollection_existing_noop s512 (by decide)⟩

/-- C7: a search issued with positive `limit = k` returns at most
`k` hits, however many records the collection holds. -/
theorem search_limit_bound (embedF : String → Vec) (dist : Vec → Vec → Int)
    (s : StoreState) (q : String) (k : Nat) (_h : 0 < k) :
    (search embedF dist s q k).length ≤ k := by
  simp only [search, storeQuery, List.length_map]
  exact List.length_take_le _ _

/-- Witness for C7: limit 1 on a store holding three records. -/
theorem search_limit_bound_witness :
    (0 < 1) ∧ 1 < storeW.records.length ∧
    (search embedW sqDist storeW "x" 1).length ≤ 1 :=
  ⟨by decide, by decide, search_limit_bound embedW sqDist storeW "x" 1 (by decide)⟩

/-- C10: `search` called without an explicit limit uses the default
3; the demo driver's call overrides it to 2; and every returned hit
carries only the `text` output field — `id` and `vector` are never
included. -/
theorem search_default_limit_and_fields (embedF : String → Vec)
    (dist : Vec → Vec → Int) (s : StoreState) (q : String) (limit : Nat) :
    search embedF dist s q = search embedF dist s q 3 ∧
    mainSearchResults embedF dist s q = search embedF dist s q 2 ∧
    (search embedF dist s q limit).all
      (fun h => h.entity.id == none && h.entity.vector == none &&
        h.entity.text.isSome) = true := by
  refine ⟨rfl, rfl, ?_⟩
  simp only [search, storeQuery, List.all_eq_true, List.mem_map]
  rintro x ⟨r, _, rfl⟩
  simp [mkHit]

/-- C1: for every query and positive limit, `search` embeds the
query and issues the store query over the collection with
`output_fields=["text"]`, and the driver reports one `SearchHit` per raw
hit, in order, with `score` equal to the negation of that hit's raw
distance. -/
theorem searchHits_score_neg_distance (embedF : String → Vec)
    (dist : Vec → Vec → Int) (s : StoreState) (query : String) (limit : Nat)
    (_h : 0 < limit) :
    searchHits embedF dist s query limit =
      (storeQuery dist s COLLECTION_NAME (embedF query) limit ["text"]).map
        toSearchHit ∧
    ∀ hit ∈ searchHits embedF dist s query limit,
      hit.score = -hit.rawDistance := by
  refine ⟨rfl, ?_⟩
  intro hit hmem
  simp only [searchHits, List.mem_map] at hmem
  obtain ⟨r, _, rfl⟩ := hmem
  rfl

/-- Witness for C1 on a three-record store with limit 2. -/
theorem searchHits_score_neg_distance_witness :
    (0 < 2) ∧
    (searchHits embedW sqDist storeW "x" 2 =
      (storeQuery sqDist storeW COLLECTION_NAME (embedW "x") 2 ["text"]).map
        toSearchHit ∧
     ∀ hit ∈ searchHits embedW sqDist storeW "x" 2,
       hit.score = -hit.rawDistance) :=
  ⟨by decide, searchHits_score_neg_distance embedW sqDist storeW "x" 2 (by decide)⟩

/-- C6: the store returns hits by nondecreasing raw distance, and
the driver's reported hits preserve exactly the order received from the
store — their raw distances are the store hits' distances in the same
order, with no re-sorting. -/
theorem searchHits_sorted (embedF : String → Vec) (dist : Vec → Vec → Int)
    (s : StoreState) (q : String) (limit : Nat) :
    List.Pairwise (fun a b => a.rawDistance ≤ b.rawDistance)
      (searchHits embedF dist s q limit) ∧
    (searchHits embedF dist s q limit).map SearchHit.rawDistance =
      (storeQuery dist s COLLECTION_NAME (embedF q) limit ["text"]).map
        RawHit.distance := by
  constructor
  · simp only [searchHits, search, storeQuery, List.pairwise_map]
    haveI : IsTotal StoredRecord
        (fun a b => dist (embedF q) a.vector ≤ dist (embedF q) b.vector) :=
      ⟨fun a b => le_total _ _⟩
    haveI : IsTrans StoredRecord
        (fun a b => dist (embedF q) a.vector ≤ dist (embedF q) b.vector) :=
      ⟨fun a b c hab hbc => le_trans hab hbc⟩
    have hsorted : List.Pairwise
        (fun a b : StoredRecord =>
          dist (embedF q) a.vector ≤ dist (embedF q) b.vector)
        (List.take limit
          (List.insertionSort
            (fun a b => dist (embedF q) a.vector ≤ dist (embedF q) b.vector)
            ((s.records.filter (fun p => p.1 == COLLECTION_NAME)).map
              (fun p => p.2)))) :=
      List.Pairwise.sublist (List.take_sublist _ _)
        (List.sorted_insertionSort _ _)
    exact hsorted.imp (fun hab => hab)
  · simp only [searchHits, search, List.map_map]
    rfl

/-- The ingestion loop with every embedding succeeding: one record per
document is appended, in input order, each built by embedding the text
and then inserting. -/
theorem addDocsLoop_all_ok (f : String → Vec) (docs : List Doc) :
    ∀ s : StoreState,
      addDocsLoop (fun t => Except.ok (f t)) s docs =
        ({ s with records := s.records ++
            docs.map (fun d => (COLLECTION_NAME, mkRecord (f d.text) d)) },
         none) := by
  induction docs with
  | nil => intro s; simp [addDocsLoop]
  | cons d ds ih =>
      intro s
      simp only [addDocsLoop]
      rw [ih]
      simp [insertRecord, List.append_assoc]

/-- C5: with every embedding call succeeding, `add_documents`
processes the documents one at a time in input order — for each, embed
then insert, so the store gains exactly the per-document records in the
documents' order — and reports the count of documents inserted, which
equals the number of records added. -/
theorem add_documents_in_order_count (f : String → Vec) (s : StoreState)
    (docs : List Doc) :
    add_documents (fun t => Except.ok (f t)) s docs =
      ({ s with records := s.records ++
          docs.map (fun d => (COLLECTION_NAME, mkRecord (f d.text) d)) },
       Except.ok docs.length) ∧
    (docs.map (fun d => (COLLECTION_NAME, mkRecord (f d.text) d))).length =
      docs.length := by
  refine ⟨?_, by simp⟩
  simp [add_documents, addDocsLoop_all_ok f docs s]

/-- The ingestion loop, when the provider fails on the document at index
`i` after succeeding on all earlier ones, stops right there: the records
of the first `i` documents are in the store, in order, and the error is
returned. -/
theorem addDocsLoop_stops_at_error (embed : String → Except EmbedError Vec)
    (docs : List Doc) :
    ∀ (i : Nat) (s : StoreState) (e : EmbedError) (hi : i < docs.length),
      (∀ d ∈ docs.take i, (embed d.text).isOk = true) →
      embed (docs.get ⟨i, hi⟩).text = Except.error e →
      addDocsLoop embed s docs =
        ({ s with records := s.records ++
            (docs.take i).map (fun d =>
              (COLLECTION_NAME, mkRecord (okVal (embed d.text)) d)) },
         some e) := by
  induction docs with
  | nil => intro i s e hi _ _; exact absurd hi (by simp)
  | cons d ds ih =>
      intro i s e hi hok herr
      cases i with
      | zero =>
          simp only [List.get] at herr
          simp [addDocsLoop, herr]
      | succ j =>
          have hd : (embed d.text).isOk = true := hok d (by simp)
          obtain ⟨v, hv⟩ : ∃ v, embed d.text = Except.ok v := by
            cases hdt : embed d.text with
            | ok v => exact ⟨v, rfl⟩
            | error e2 => rw [hdt] at hd; simp [Except.isOk, Except.toBool] at hd
          have hi2 : j < ds.length := Nat.lt_of_succ_lt_succ (by simpa using hi)
          have hok2 : ∀ x ∈ ds.take j, (embed x.text).isOk = true := by
            intro x hx
            exact hok x (by simp [hx])
          have herr2 : embed (ds.get ⟨j, hi2⟩).text = Except.error e := by
            simpa using herr
          simp only [addDocsLoop, hv]
          rw [ih j _ e hi2 hok2 herr2]
          simp [insertRecord, hv, okVal, List.append_assoc]

/-- C3: `add_documents` is not atomic but leaves a clean prefix of
work: if the provider fails on the document at 0-based index `i` (the
(i+1)-st document) after succeeding on all earlier ones, the operation
surfaces that error instead of a success count, and the store holds
exactly the records of the documents before index `i`, in order, with no
rollback. -/
theorem add_documents_stops_at_error (embed : String → Except EmbedError Vec)
    (s : StoreState) (docs : List Doc) (i : Nat) (e : EmbedError)
    (hi : i < docs.length)
    (hok : ∀ d ∈ docs.take i, (embed d.text).isOk = true)
    (herr : embed (docs.get ⟨i, hi⟩).text = Except.error e) :
    (add_documents embed s docs).2 = Except.error e ∧
    (add_documents embed s docs).1.records = s.records ++
      (docs.take i).map
        (fun d => (COLLECTION_NAME, mkRecord (okVal (embed d.text)) d)) := by
  have h := addDocsLoop_stops_at_error embed docs i s e hi hok herr
  simp [add_documents, h]

/-- Witness for C3: five documents, the provider failing on the third —
the error surfaces and exactly the first two documents' records are in
the store. -/
theorem add_documents_stops_at_error_witness :
    (add_documents embedFail storeE docsW).2 =
      Except.error EmbedError.providerUnavailable ∧
    (add_documents embedFail storeE docsW).1.records = storeE.records ++
      (docsW.take 2).map
        (fun d => (COLLECTION_NAME, mkRecord (okVal (embedFail d.text)) d)) :=
  add_documents_stops_at_error embedFail storeE docsW 2
    EmbedError.providerUnavailable (by decide) (by decide) (by rfl)

/-- C8: if either required configuration value is absent from the
parsed configuration file, loading fails with the missing key — the
module-level dict access raises before anything else — and startup ends
in that error no matter what the rest of the program would have done, so
no facade operation runs. -/
theorem loadConfig_missing (cfg : List (String × String))
    (h : configLookup cfg "OPENAI_API_KEY" = none ∨
         configLookup cfg "OPENAI_BASE_URL" = none) :
    ∃ key, loadConfig cfg = Except.error (StartupError.configMissing key) ∧
      ∀ run : AppConfig → StoreState,
        startup cfg run = Except.error (StartupError.configMissing key) := by
  cases hk : configLookup cfg "OPENAI_API_KEY" with
  | none =>
      have hl : loadConfig cfg =
          Except.error (StartupError.configMissing "OPENAI_API_KEY") := by
        simp [loadConfig, hk]
      exact ⟨"OPENAI_API_KEY", hl, fun run => by simp [startup, hl, Except.map]⟩
  | some k =>
      have hu : configLookup cfg "OPENAI_BASE_URL" = none := by
        rcases h with h | h
        · rw [hk] at h; exact absurd h (by simp)
        · exact h
      have hl : loadConfig cfg =
          Except.error (StartupError.configMissing "OPENAI_BASE_URL") := by
        simp [loadConfig, hk, hu]
      exact ⟨"OPENAI_BASE_URL", hl, fun run => by simp [startup, hl, Except.map]⟩

/-- Witness for C8: a configuration holding only the API key, so the base
URL is missing. -/
theorem loadConfig_missing_witness :
    ∃ key, loadConfig [("OPENAI_API_KEY", "k")] =
      Except.error (StartupError.configMissing key) ∧
      ∀ run : AppConfig → StoreState,
        startup [("OPENAI_API_KEY", "k")] run =
          Except.error (StartupError.configMissing key) :=
  loadConfig_missing [("OPENAI_API_KEY", "k")] (Or.inr (by decide))

/-- C9: one iteration of the interactive loop — a line whose
stripped, lowercased form is one of `quit`, `exit`, `q` terminates the
loop; a line that strips to empty triggers no search and the loop moves
to the next line; every other line triggers exactly one search, of the
stripped line. -/
theorem runLoop_step (line : String) :
    (pyLower (pyStrip line) ∈ ["quit", "exit", "q"] →
      ∀ rest, runLoop (line :: rest) = []) ∧
    (pyLower (pyStrip line) ∉ ["quit", "exit", "q"] → pyStrip line = "" →
      ∀ rest, runLoop (line :: rest) = runLoop rest) ∧
    (pyLower (pyStrip line) ∉ ["quit", "exit", "q"] → pyStrip line ≠ "" →
      ∀ rest, runLoop (line :: rest) = pyStrip line :: runLoop rest) := by
  refine ⟨?_, ?_, ?_⟩
  · intro h rest
    simp [runLoop, processLine, h]
  · intro h he rest
    simp +decide [runLoop, processLine, h, he]
  · intro h he rest
    simp [runLoop, processLine, h, he, beq_iff_eq]

/-- Witness for C9: a quit sentinel stops the loop even with input left; a
blank line is skipped; a plain line yields exactly one search. -/
theorem runLoop_step_witness :
    runLoop [" QUIT ", "hello"] = [] ∧
    runLoop ["  ", "hi", "exit"] = ["hi"] ∧
    runLoop ["abc"] = ["abc"] := by
  refine ⟨(runLoop_step " QUIT ").1 (by decide) ["hello"], ?_, ?_⟩
  · rw [(runLoop_step "  ").2.1 (by decide) (by decide) ["hi", "exit"]]
    decide
  · rw [(runLoop_step "abc").2.2 (by decide) (by decide) []]
    decide

end RunMilvus
